import Mathlib

/-!
# Verification of the coupon issuance / redemption logic

Shallow embedding of the coupon web application (`src/app.py`): the two
record kinds (`Offer`, `CouponCode`), the code generator, and the three
state-changing request handlers (`create_offer`, `claim_offer`, `redeem`).

Modelling conventions:
* Calendar dates are integers (day numbers); the strict comparison
  `date.today() > self.expires` becomes a strict comparison on `Int`.
* Timestamps (`datetime.utcnow()`) are `Nat` values supplied by the caller.
* Python strings are Lean `String`s; slicing on code points is modelled by
  `List Char` operations where the source slices.
* The database session is a `DB` value threaded explicitly; each handler
  returns its HTTP-level outcome together with the post-commit state.
* `secrets.token_hex(k)` draws `k` random bytes; the byte stream is an
  explicit parameter `rnd : Nat → Nat` (each byte taken mod 256).
* The SQLite constraints on the `code` column (`unique=True, nullable=False`)
  live in `dbInsertCoupon`, which rejects a row exactly when the column
  constraints would make `db.session.commit()` raise.
-/

namespace Coupons

/-- An `Offer` row (`class Offer(db.Model)` in `src/app.py`).
`created_at` is irrelevant to every claim under study (it only orders the
read-side listings) and is omitted. -/
structure Offer where
  id : Nat
  restaurant : String
  description : String
  expires : Int
deriving Repr, DecidableEq

/-- A `CouponCode` row (`class CouponCode(db.Model)` in `src/app.py`).
`code` is `Option String` because the Python object can hold `None` before a
commit (the column itself is `nullable=False`, enforced in `dbInsertCoupon`). -/
structure CouponCode where
  id : Nat
  offer_id : Option Nat
  restaurant : String
  description : String
  code : Option String
  expires : Int
  redeemed_at : Option Nat
  redeemed_by : Option String
deriving Repr, DecidableEq

/-- Source: `def is_expired(self): return date.today() > self.expires`. -/
def CouponCode.is_expired (c : CouponCode) (today : Int) : Bool :=
  decide (today > c.expires)

/-- Source: `def is_redeemed(self): return self.redeemed_at is not None`. -/
def CouponCode.is_redeemed (c : CouponCode) : Bool :=
  c.redeemed_at.isSome

/-- The persistent state: the two tables, plus the autoincrement counters of
their integer primary keys. -/
structure DB where
  offers : List Offer
  coupons : List CouponCode
  next_offer_id : Nat
  next_coupon_id : Nat
deriving Repr, DecidableEq

/-- Python's `str.upper()` on a code-point sequence (ASCII case mapping, which
covers the code alphabet and form inputs in play). -/
def strUpper (s : String) : String :=
  String.mk (s.data.map Char.toUpper)

/-- Python's `str.strip()`: remove whitespace from both ends. -/
def strTrim (s : String) : String :=
  String.mk (((s.data.dropWhile Char.isWhitespace).reverse.dropWhile Char.isWhitespace).reverse)

/-- Hex encoding of a byte list, as `secrets.token_hex` renders its random
bytes: each byte becomes two lowercase hex digits. -/
def token_hex : List Nat → List Char
  | [] => []
  | b :: rest => Nat.digitChar (b % 256 / 16) :: Nat.digitChar (b % 16) :: token_hex rest

/-- Source: `def generate_code(prefix="COUP", length=8):`
`token = secrets.token_hex(length // 2).upper()[:length]` followed by
`return f"{prefix}-{token}"`.  `rnd i` is the `i`-th random byte drawn. -/
def generate_code (pfx : String) (length : Nat) (rnd : Nat → Nat) : String :=
  pfx ++ "-" ++
    String.mk (((token_hex ((List.range (length / 2)).map rnd)).map Char.toUpper).take length)

/-- Source: `CouponCode.query.filter_by(code=code).first()` — the first stored
coupon whose `code` column equals the given string. -/
def findCoupon (coupons : List CouponCode) (code : String) : Option CouponCode :=
  coupons.find? (fun c => c.code == some code)

/-- The commit of one new `CouponCode` row, with the column constraints of
`code = db.Column(db.String(64), unique=True, nullable=False)`: committing a
`None` code or a duplicate code raises `IntegrityError` and persists nothing. -/
def dbInsertCoupon (st : DB) (c : CouponCode) : Except String DB :=
  if c.code.isNone then
    .error "NOT NULL constraint failed: coupon_code.code"
  else if st.coupons.any (fun c0 => c0.code == c.code) then
    .error "UNIQUE constraint failed: coupon_code.code"
  else
    .ok { st with coupons := st.coupons ++ [c], next_coupon_id := st.next_coupon_id + 1 }

/-- Source: `prefix = offer.restaurant[:4].upper()` in `claim_offer`. -/
def couponPfx (offer : Offer) : String :=
  String.mk ((offer.restaurant.toList.take 4).map Char.toUpper)

/-- The candidate generated at iteration `i` of the retry loop:
`generate_code(prefix=prefix, length=10)`, consuming byte stream `rnd i`. -/
def candidateCode (pfx : String) (rnd : Nat → Nat → Nat) (i : Nat) : String :=
  generate_code pfx 10 (rnd i)

/-- The body of `for _ in range(10)` in `claim_offer`: at iteration `i`,
generate a candidate; accept it if no stored coupon carries it, otherwise
retry.  `fuel` counts the remaining iterations (initially 10). -/
def pickCodeLoop (coupons : List CouponCode) (pfx : String) (rnd : Nat → Nat → Nat) :
    Nat → Nat → Option String
  | 0, _ => none
  | fuel + 1, i =>
    let cand := candidateCode pfx rnd i
    if (findCoupon coupons cand).isNone then some cand
    else pickCodeLoop coupons pfx rnd fuel (i + 1)

/-- The value of the local variable `code` after the retry loop of
`claim_offer`: `None` exactly when all 10 candidates collided. -/
def pickCode (coupons : List CouponCode) (pfx : String) (rnd : Nat → Nat → Nat) :
    Option String :=
  pickCodeLoop coupons pfx rnd 10 0

/-- The JSON object returned by a successful `claim_offer`
(`jsonify({"ok": True, "code": ..., "view_url": ..., "qr_url": ..., "expires": ...})`).
`view_url` / `qr_url` are the `url_for` routes of `view_coupon` and `coupon_qr`. -/
structure ClaimResponse where
  ok : Bool
  code : Option String
  view_url : String
  qr_url : String
  expires : Int
deriving Repr, DecidableEq

/-- Outcome of `POST /claim/<offer_id>`: `notFound` is the `get_or_404` abort,
`writeFailure` is an `IntegrityError` escaping from `db.session.commit()`. -/
inductive ClaimOutcome where
  | notFound
  | writeFailure (msg : String)
  | success (resp : ClaimResponse)
deriving Repr, DecidableEq

/-- HTTP status of each claim outcome: `get_or_404` aborts with 404, an
unhandled commit exception is a 500, `jsonify` of the success body is 200. -/
def ClaimOutcome.statusCode : ClaimOutcome → Nat
  | .notFound => 404
  | .writeFailure _ => 500
  | .success _ => 200

/-- The route text `url_for("view_coupon", code=...)` resolves to.  On the
success path the code is always non-`None`; `Option.getD "None"` mirrors how a
missing value would be stringified. -/
def viewUrl (code : Option String) : String :=
  "/coupon/" ++ code.getD "None"

/-- The route text `url_for("coupon_qr", code=...)` resolves to. -/
def qrUrl (code : Option String) : String :=
  "/coupon/" ++ code.getD "None" ++ "/qr.png"

/-- Source: `claim_offer(offer_id)` (`@app.route("/claim/<int:offer_id>")`).
Looks up the offer, runs the bounded retry loop for a fresh code, constructs
the new `CouponCode` snapshotting the offer's fields, and commits it.
`newCouponRow` is the record constructed by `CouponCode(offer_id=..., ...)`. -/
def newCouponRow (st : DB) (offer : Offer) (code? : Option String) : CouponCode :=
  { id := st.next_coupon_id
    offer_id := some offer.id
    restaurant := offer.restaurant
    description := offer.description
    code := code?
    expires := offer.expires
    redeemed_at := none
    redeemed_by := none }

def claim_offer (st : DB) (offer_id : Nat) (rnd : Nat → Nat → Nat) :
    ClaimOutcome × DB :=
  match st.offers.find? (fun o => o.id == offer_id) with
  | none => (.notFound, st)
  | some offer =>
    let code? := pickCode st.coupons (couponPfx offer) rnd
    let coupon : CouponCode := newCouponRow st offer code?
    match dbInsertCoupon st coupon with
    | .error e => (.writeFailure e, st)
    | .ok st' =>
      (.success
        { ok := true
          code := coupon.code
          view_url := viewUrl coupon.code
          qr_url := qrUrl coupon.code
          expires := coupon.expires }, st')

/-- Source: `code = (request.form.get("code") or "").strip().upper()`.
A missing form field is `none`; `or ""` turns both a missing and an empty
value into `""` before `strip`/`upper`. -/
def normalizeCode (formCode : Option String) : String :=
  strUpper (strTrim (formCode.getD ""))

/-- Outcome of `POST /redeem`; `success` carries the `code` field of the
returned JSON (`jsonify({"ok": True, "code": c.code})`). -/
inductive RedeemOutcome where
  | missingCode
  | notFound
  | expired
  | alreadyRedeemed
  | success (code : Option String)
deriving Repr, DecidableEq

/-- HTTP status attached to each redeem outcome in the source:
400, 404, 410, 409 on the four error returns, 200 on success. -/
def RedeemOutcome.statusCode : RedeemOutcome → Nat
  | .missingCode => 400
  | .notFound => 404
  | .expired => 410
  | .alreadyRedeemed => 409
  | .success _ => 200

/-- The in-place mutation performed on the found coupon when every
precondition passes: `c.redeemed_at = datetime.utcnow()` and, when a
non-blank name was supplied, `c.redeemed_by = who`. -/
def markRedeemed (now : Nat) (who : String) (c : CouponCode) : CouponCode :=
  { c with
    redeemed_at := some now
    redeemed_by := if who = "" then c.redeemed_by else some who }

/-- Replace the first stored coupon whose `code` column equals `code` by its
image under `f` — the persisted effect of mutating the object returned by
`filter_by(code=code).first()` and committing. -/
def updateCoupon (coupons : List CouponCode) (code : String) (f : CouponCode → CouponCode) :
    List CouponCode :=
  match coupons with
  | [] => []
  | c :: rest =>
    if c.code == some code then f c :: rest
    else c :: updateCoupon rest code f

/-- Source: `redeem()` (`@app.route("/redeem", methods=["POST"])`).
Normalizes the submitted code, then runs the four precondition checks in
source order, mutating and committing only when all of them pass. -/
def redeem (st : DB) (formCode formWho : Option String) (today : Int) (now : Nat) :
    RedeemOutcome × DB :=
  let code := normalizeCode formCode
  let who := strTrim (formWho.getD "")
  if code = "" then (.missingCode, st)
  else
    match findCoupon st.coupons code with
    | none => (.notFound, st)
    | some c =>
      if c.is_expired today then (.expired, st)
      else if c.is_redeemed then (.alreadyRedeemed, st)
      else (.success c.code,
        { st with coupons := updateCoupon st.coupons code (markRedeemed now who) })

/-- Source: the POST branch of `create_offer()`.  The three form fields are
trimmed and must be non-blank; the date parse `strptime(expires_str, "%Y-%m-%d")`
is abstracted by the parameter `expires?`, which is `some d` exactly when the
(non-blank) `expires` field parses to day number `d`, and `none` on a
`ValueError`.  Returns whether the offer was created. -/
def create_offer (st : DB) (restaurant description : String) (expires? : Option Int) :
    Bool × DB :=
  let r := strTrim restaurant
  let d := strTrim description
  if r = "" || d = "" then (false, st)
  else
    match expires? with
    | none => (false, st)
    | some e =>
      (true,
        { st with
          offers := st.offers ++
            [{ id := st.next_offer_id, restaurant := r, description := d, expires := e }]
          next_offer_id := st.next_offer_id + 1 })

/-- The state-changing requests of the application.  The read-only routes
(`home`, `search`, `view_coupon`, `coupon_qr`, GET `create_offer`) never touch
the session and are omitted from the transition alphabet. -/
inductive Op where
  | claimOp (offer_id : Nat) (rnd : Nat → Nat → Nat)
  | redeemOp (formCode formWho : Option String) (today : Int) (now : Nat)
  | createOfferOp (restaurant description : String) (expires? : Option Int)

/-- Persistent-state transition of one request. -/
def step (st : DB) : Op → DB
  | .claimOp oid rnd => (claim_offer st oid rnd).2
  | .redeemOp fc fw today now => (redeem st fc fw today now).2
  | .createOfferOp r d e => (create_offer st r d e).2

/-- No two stored coupons carry the same `code` column value. -/
def codesDistinct (st : DB) : Prop :=
  (st.coupons.map (fun c => c.code)).Nodup

/-! ## Example rows used by the witness theorems -/

/-- The seed offer inserted at boot (`Offer(restaurant="Chipotle", ...)`),
with `2025-11-05` rendered as day number 100. -/
def wOffer : Offer :=
  { id := 1, restaurant := "Chipotle", description := "Free chips", expires := 100 }

/-- An issued, not yet redeemed coupon. -/
def wCouponA : CouponCode :=
  { id := 1, offer_id := some 1, restaurant := "Chipotle", description := "Free chips"
    code := some "CHIP-AA11BB22CC", expires := 100, redeemed_at := none, redeemed_by := none }

/-- A coupon that is both past its expiration date and already redeemed. -/
def wCouponB : CouponCode :=
  { id := 2, offer_id := some 1, restaurant := "Chipotle", description := "Free chips"
    code := some "CHIP-DD", expires := 50, redeemed_at := some 3, redeemed_by := some "Alice" }

/-- A concrete database holding the seed offer and the two coupons above. -/
def wDB : DB :=
  { offers := [wOffer], coupons := [wCouponA, wCouponB], next_offer_id := 2, next_coupon_id := 3 }

/-! ## Basic lemmas about lookups -/

lemma findCoupon_eq_none {cs : List CouponCode} {code : String} :
    findCoupon cs code = none ↔ ∀ c ∈ cs, c.code ≠ some code := by
  simp [findCoupon, List.find?_eq_none]

lemma findCoupon_some_mem {cs : List CouponCode} {code : String} {c : CouponCode}
    (h : findCoupon cs code = some c) : c ∈ cs ∧ c.code = some code := by
  refine ⟨List.mem_of_find?_eq_some h, ?_⟩
  have h2 := List.find?_some h
  simpa using h2

/-! ## C8 — derived expiry state -/

/-- C8: a coupon is expired iff today's date is strictly after the stored
expiration date; a coupon whose expiration date equals today is not expired;
and the state is a pure function of the current date and the stored date
(coupons with equal stored dates agree on every day). -/
theorem is_expired_characterization (c : CouponCode) (today : Int) :
    (c.is_expired today = true ↔ c.expires < today) ∧
    c.is_expired c.expires = false ∧
    (∀ c' : CouponCode, c'.expires = c.expires → c'.is_expired today = c.is_expired today) := by
  refine ⟨by simp [CouponCode.is_expired], by simp [CouponCode.is_expired], ?_⟩
  intro c' h
  simp [CouponCode.is_expired, h]

/-- Instantiation of `is_expired_characterization` at the example coupon. -/
theorem is_expired_characterization_witness :
    wCouponA.is_expired 101 = true ∧ wCouponA.is_expired wCouponA.expires = false :=
  ⟨(is_expired_characterization wCouponA 101).1.mpr (by decide),
   (is_expired_characterization wCouponA 101).2.1⟩

/-! ## C1 — ordered precondition checks of redeem -/

/-- C1: the redeem handler normalizes the submitted code (trim then
uppercase), and the precondition checks run in a fixed order with the first
failure winning: blank code → 400, unknown code → 404, expired → 410
(regardless of the redemption state, so an expired and already-redeemed
coupon reports expired), already redeemed → 409, otherwise success → 200. -/
theorem redeem_precondition_order (st : DB) (fc fw : Option String) (today : Int) (now : Nat) :
    (normalizeCode fc = "" →
      (redeem st fc fw today now).1 = RedeemOutcome.missingCode ∧
      (redeem st fc fw today now).1.statusCode = 400) ∧
    (normalizeCode fc ≠ "" → findCoupon st.coupons (normalizeCode fc) = none →
      (redeem st fc fw today now).1 = RedeemOutcome.notFound ∧
      (redeem st fc fw today now).1.statusCode = 404) ∧
    (∀ c, normalizeCode fc ≠ "" → findCoupon st.coupons (normalizeCode fc) = some c →
      c.is_expired today = true →
      (redeem st fc fw today now).1 = RedeemOutcome.expired ∧
      (redeem st fc fw today now).1.statusCode = 410) ∧
    (∀ c, normalizeCode fc ≠ "" → findCoupon st.coupons (normalizeCode fc) = some c →
      c.is_expired today = false → c.is_redeemed = true →
      (redeem st fc fw today now).1 = RedeemOutcome.alreadyRedeemed ∧
      (redeem st fc fw today now).1.statusCode = 409) ∧
    (∀ c, normalizeCode fc ≠ "" → findCoupon st.coupons (normalizeCode fc) = some c →
      c.is_expired today = false → c.is_redeemed = false →
      (redeem st fc fw today now).1 = RedeemOutcome.success c.code ∧
      (redeem st fc fw today now).1.statusCode = 200) := by
  refine ⟨?_, ?_, ?_, ?_, ?_⟩
  · intro h
    simp [redeem, h, RedeemOutcome.statusCode]
  · intro h hf
    simp [redeem, h, hf, RedeemOutcome.statusCode]
  · intro c h hf hexp
    simp [redeem, h, hf, hexp, RedeemOutcome.statusCode]
  · intro c h hf hexp hred
    simp [redeem, h, hf, hexp, hred, RedeemOutcome.statusCode]
  · intro c h hf hexp hred
    simp [redeem, h, hf, hexp, hred, RedeemOutcome.statusCode]

/-- Instantiation of `redeem_precondition_order` at a coupon that is both
expired and already redeemed: the expired check wins, status 410. -/
theorem redeem_precondition_order_witness :
    (redeem wDB (some "  chip-dd  ") none 100 7).1.statusCode = 410 :=
  ((redeem_precondition_order wDB (some "  chip-dd  ") none 100 7).2.2.1 wCouponB
    (by decide) (by decide) (by decide)).2

/-! ## C6 — claiming a nonexistent offer -/

/-- C6: claiming an offer id not present in storage yields the not-found
condition (HTTP 404), creates no `CouponCode` row, and leaves the stored
state unchanged. -/
theorem claim_missing_offer (st : DB) (oid : Nat) (rnd : Nat → Nat → Nat)
    (h : ∀ o ∈ st.offers, o.id ≠ oid) :
    (claim_offer st oid rnd).1 = ClaimOutcome.notFound ∧
    (claim_offer st oid rnd).1.statusCode = 404 ∧
    (claim_offer st oid rnd).2 = st := by
  have hfind : st.offers.find? (fun o => o.id == oid) = none := by
    rw [List.find?_eq_none]
    intro o ho
    simpa using h o ho
  simp [claim_offer, hfind, ClaimOutcome.statusCode]

/-- Instantiation of `claim_missing_offer`: offer id 42 does not exist in the
example database. -/
theorem claim_missing_offer_witness :
    (claim_offer wDB 42 (fun _ _ => 0)).1 = ClaimOutcome.notFound ∧
    (claim_offer wDB 42 (fun _ _ => 0)).1.statusCode = 404 ∧
    (claim_offer wDB 42 (fun _ _ => 0)).2 = wDB :=
  claim_missing_offer wDB 42 (fun _ _ => 0) (by decide)

/-! ## C10 — failed redemption writes nothing -/

/-- C10: the redeem handler never touches the offers table, and whenever it
returns anything but success (missing code, not found, expired, already
redeemed) the whole stored state is exactly as before the request. -/
theorem redeem_error_frame (st : DB) (fc fw : Option String) (today : Int) (now : Nat) :
    (redeem st fc fw today now).2.offers = st.offers ∧
    ((∀ z, (redeem st fc fw today now).1 ≠ RedeemOutcome.success z) →
      (redeem st fc fw today now).2 = st) := by
  by_cases h : normalizeCode fc = ""
  · simp [redeem, h]
  · cases hf : findCoupon st.coupons (normalizeCode fc) with
    | none => simp [redeem, h, hf]
    | some c =>
      by_cases hexp : c.is_expired today
      · simp [redeem, h, hf, hexp]
      · by_cases hred : c.is_redeemed
        · simp [redeem, h, hf, hexp, hred]
        · constructor
          · simp [redeem, h, hf, hexp, hred]
          · intro hz
            exfalso
            exact hz c.code (by simp [redeem, h, hf, hexp, hred])

/-- Instantiation of `redeem_error_frame`: redeeming an unknown code leaves
the example database unchanged. -/
theorem redeem_error_frame_witness :
    (redeem wDB (some "NOPE-123") none 100 7).2 = wDB :=
  (redeem_error_frame wDB (some "NOPE-123") none 100 7).2 (by
    intro z hz
    rw [show (redeem wDB (some "NOPE-123") none 100 7).1 = RedeemOutcome.notFound from by decide] at hz
    exact RedeemOutcome.noConfusion hz)

/-! ## C7 — shape of generated codes -/

lemma token_hex_length (bytes : List Nat) : (token_hex bytes).length = 2 * bytes.length := by
  induction bytes with
  | nil => rfl
  | cons b rest ih => simp [token_hex, ih]; ring

lemma token_hex_mem {ch : Char} :
    ∀ {bytes : List Nat}, ch ∈ token_hex bytes → ∃ k, k < 16 ∧ ch = Nat.digitChar k := by
  intro bytes h
  induction bytes with
  | nil => simp [token_hex] at h
  | cons b rest ih =>
    simp only [token_hex, List.mem_cons] at h
    rcases h with h | h | h
    · exact ⟨b % 256 / 16, by omega, h⟩
    · exact ⟨b % 16, by omega, h⟩
    · exact ih h

lemma digitChar_upper_alnum :
    ∀ k, k < 16 → ((Nat.digitChar k).toUpper.isDigit = true ∨ (Nat.digitChar k).toUpper.isUpper = true) := by
  decide

/-- C7 (amended): for every prefix, target length and byte stream,
`generate_code` returns PFX-TOKEN where TOKEN is uppercase hexadecimal (a
subset of the uppercase alphanumeric alphabet) and has exactly
`2 * (length / 2)` characters: the requested token length when it is even,
one character fewer when it is odd.  The `[:length]` truncation is a no-op
and no padding ever happens. -/
theorem generate_code_shape (pfx : String) (length : Nat) (rnd : Nat → Nat) :
    ∃ token : List Char,
      generate_code pfx length rnd = pfx ++ "-" ++ String.mk token ∧
      token.length = 2 * (length / 2) ∧
      ∀ ch ∈ token, ch.isDigit = true ∨ ch.isUpper = true := by
  refine ⟨((token_hex ((List.range (length / 2)).map rnd)).map Char.toUpper).take length,
    rfl, ?_, ?_⟩
  · rw [List.length_take, List.length_map, token_hex_length, List.length_map,
      List.length_range]
    omega
  · intro ch hch
    have hch' := List.mem_of_mem_take hch
    rcases List.mem_map.mp hch' with ⟨d, hd, rfl⟩
    rcases token_hex_mem hd with ⟨k, hk, rfl⟩
    exact digitChar_upper_alnum k hk

/-- Instantiation of `generate_code_shape` at the default prefix and an even
target length. -/
theorem generate_code_shape_witness :
    ∃ token : List Char,
      generate_code "COUP" 8 (fun i => i) = "COUP" ++ "-" ++ String.mk token ∧
      token.length = 2 * (8 / 2) ∧
      ∀ ch ∈ token, ch.isDigit = true ∨ ch.isUpper = true :=
  generate_code_shape "COUP" 8 (fun i => i)

/-- The claim as frozen fails for an odd target length: with prefix COUP and
requested token length 9 the produced token has only 8 characters, because
`secrets.token_hex(9 // 2)` yields 8 hex digits and nothing pads the result. -/
theorem generate_code_odd_length_counterexample :
    ¬ ∃ token : String,
        generate_code "COUP" 9 (fun _ => 0) = "COUP" ++ "-" ++ token ∧
        token.length = 9 := by
  rintro ⟨t, heq, hlen⟩
  have h13 : (generate_code "COUP" 9 (fun _ => 0)).length = 13 := by decide
  rw [heq] at h13
  simp [String.length_append, hlen] at h13
  exact absurd h13 (by decide)

/-! ## Lemmas on the retry loop and the insert path -/

lemma pickCodeLoop_none_of_collide (coupons : List CouponCode) (pfx : String)
    (rnd : Nat → Nat → Nat) :
    ∀ (fuel start : Nat),
      (∀ i, start ≤ i → i < start + fuel →
        findCoupon coupons (candidateCode pfx rnd i) ≠ none) →
      pickCodeLoop coupons pfx rnd fuel start = none := by
  intro fuel
  induction fuel with
  | zero => intro start _; rfl
  | succ n ih =>
    intro start h
    cases hf : findCoupon coupons (candidateCode pfx rnd start) with
    | none => exact absurd hf (h start le_rfl (by omega))
    | some c =>
      simp only [pickCodeLoop, hf, Option.isNone_some, Bool.false_eq_true, if_false]
      exact ih (start + 1) (fun i h1 h2 => h i (by omega) (by omega))

lemma pickCodeLoop_some_fresh (coupons : List CouponCode) (pfx : String)
    (rnd : Nat → Nat → Nat) :
    ∀ (fuel start : Nat) (code : String),
      pickCodeLoop coupons pfx rnd fuel start = some code →
      findCoupon coupons code = none := by
  intro fuel
  induction fuel with
  | zero => intro start code h; exact Option.noConfusion h
  | succ n ih =>
    intro start code h
    cases hf : findCoupon coupons (candidateCode pfx rnd start) with
    | none =>
      simp only [pickCodeLoop, hf, Option.isNone_none, if_true, Option.some.injEq] at h
      rw [← h]
      exact hf
    | some c =>
      simp only [pickCodeLoop, hf, Option.isNone_some, Bool.false_eq_true, if_false] at h
      exact ih (start + 1) code h

lemma pickCodeLoop_first (coupons : List CouponCode) (pfx : String)
    (rnd : Nat → Nat → Nat) :
    ∀ (fuel start i : Nat), start ≤ i → i < start + fuel →
      findCoupon coupons (candidateCode pfx rnd i) = none →
      (∀ j, start ≤ j → j < i → findCoupon coupons (candidateCode pfx rnd j) ≠ none) →
      pickCodeLoop coupons pfx rnd fuel start = some (candidateCode pfx rnd i) := by
  intro fuel
  induction fuel with
  | zero => intro start i h1 h2 _ _; exact absurd h2 (by omega)
  | succ n ih =>
    intro start i h1 h2 hfresh hfirst
    rcases Nat.eq_or_lt_of_le h1 with rfl | hlt
    · simp [pickCodeLoop, hfresh]
    · cases hf : findCoupon coupons (candidateCode pfx rnd start) with
      | none => exact absurd hf (hfirst start le_rfl hlt)
      | some c =>
        simp only [pickCodeLoop, hf, Option.isNone_some, Bool.false_eq_true, if_false]
        exact ih (start + 1) i hlt (by omega) hfresh (fun j hj1 hj2 => hfirst j (by omega) hj2)

lemma findCoupon_none_any_false {cs : List CouponCode} {code : String}
    (h : findCoupon cs code = none) :
    cs.any (fun c0 => c0.code == some code) = false := by
  rw [findCoupon_eq_none] at h
  rw [List.any_eq_false]
  intro c hc
  simpa using h c hc

@[simp] lemma newCouponRow_code (st : DB) (offer : Offer) (code? : Option String) :
    (newCouponRow st offer code?).code = code? := rfl

@[simp] lemma newCouponRow_expires (st : DB) (offer : Offer) (code? : Option String) :
    (newCouponRow st offer code?).expires = offer.expires := rfl

@[simp] lemma newCouponRow_restaurant (st : DB) (offer : Offer) (code? : Option String) :
    (newCouponRow st offer code?).restaurant = offer.restaurant := rfl

@[simp] lemma newCouponRow_description (st : DB) (offer : Offer) (code? : Option String) :
    (newCouponRow st offer code?).description = offer.description := rfl

@[simp] lemma newCouponRow_offer_id (st : DB) (offer : Offer) (code? : Option String) :
    (newCouponRow st offer code?).offer_id = some offer.id := rfl

@[simp] lemma newCouponRow_redeemed_at (st : DB) (offer : Offer) (code? : Option String) :
    (newCouponRow st offer code?).redeemed_at = none := rfl

/-- Case analysis of `claim_offer`: either it changes nothing and does not
succeed (unknown offer, or retry exhaustion followed by a failed commit), or
it appends exactly the one freshly-coded row and reports success. -/
lemma claim_offer_cases (st : DB) (oid : Nat) (rnd : Nat → Nat → Nat) :
    ((claim_offer st oid rnd).2 = st ∧
      ∀ resp, (claim_offer st oid rnd).1 ≠ ClaimOutcome.success resp) ∨
    (∃ offer code,
      st.offers.find? (fun o => o.id == oid) = some offer ∧
      pickCode st.coupons (couponPfx offer) rnd = some code ∧
      findCoupon st.coupons code = none ∧
      (claim_offer st oid rnd).1 = ClaimOutcome.success
        { ok := true, code := some code, view_url := viewUrl (some code),
          qr_url := qrUrl (some code), expires := offer.expires } ∧
      (claim_offer st oid rnd).2 =
        { st with
          coupons := st.coupons ++ [newCouponRow st offer (some code)]
          next_coupon_id := st.next_coupon_id + 1 }) := by
  cases hoff : st.offers.find? (fun o => o.id == oid) with
  | none =>
    left
    exact ⟨by simp [claim_offer, hoff], fun resp => by simp [claim_offer, hoff]⟩
  | some offer =>
    cases hpick : pickCode st.coupons (couponPfx offer) rnd with
    | none =>
      left
      have hins : dbInsertCoupon st (newCouponRow st offer none) =
          .error "NOT NULL constraint failed: coupon_code.code" := by
        simp [dbInsertCoupon, newCouponRow]
      exact ⟨by simp [claim_offer, hoff, hpick, hins],
        fun resp => by simp [claim_offer, hoff, hpick, hins]⟩
    | some code =>
      right
      have hfresh : findCoupon st.coupons code = none :=
        pickCodeLoop_some_fresh st.coupons (couponPfx offer) rnd 10 0 code hpick
      have hany := findCoupon_none_any_false hfresh
      have hins : dbInsertCoupon st (newCouponRow st offer (some code)) =
          .ok { st with
            coupons := st.coupons ++ [newCouponRow st offer (some code)]
            next_coupon_id := st.next_coupon_id + 1 } := by
        simp [dbInsertCoupon, newCouponRow, hany]
      exact ⟨offer, code, rfl, hpick, hfresh,
        by simp [claim_offer, hoff, hpick, hins],
        by simp [claim_offer, hoff, hpick, hins]⟩

/-! ## C4 — bounded retries, then a doomed commit -/

/-- C4: code generation in `claim_offer` is retried up to 10 times: the first
fresh candidate among attempts 0..9 is used; if all ten candidates collide
with stored codes the handler does not hard-fail but builds the row with an
unset code, and the commit is rejected by the storage layer's NOT NULL
constraint — a write failure that persists nothing. -/
theorem claim_retry_exhaustion (st : DB) (oid : Nat) (rnd : Nat → Nat → Nat) (offer : Offer)
    (hoff : st.offers.find? (fun o => o.id == oid) = some offer) :
    ((∀ i, i < 10 → findCoupon st.coupons (candidateCode (couponPfx offer) rnd i) ≠ none) →
      (claim_offer st oid rnd).1 =
        ClaimOutcome.writeFailure "NOT NULL constraint failed: coupon_code.code" ∧
      (claim_offer st oid rnd).2 = st) ∧
    (∀ i, i < 10 → findCoupon st.coupons (candidateCode (couponPfx offer) rnd i) = none →
      (∀ j, j < i → findCoupon st.coupons (candidateCode (couponPfx offer) rnd j) ≠ none) →
      ∃ resp, (claim_offer st oid rnd).1 = ClaimOutcome.success resp ∧
        resp.code = some (candidateCode (couponPfx offer) rnd i)) := by
  constructor
  · intro hcol
    have hpick : pickCode st.coupons (couponPfx offer) rnd = none :=
      pickCodeLoop_none_of_collide _ _ _ 10 0 (fun i _ h2 => hcol i (by omega))
    have hins : dbInsertCoupon st (newCouponRow st offer none) =
        .error "NOT NULL constraint failed: coupon_code.code" := by
      simp [dbInsertCoupon, newCouponRow]
    exact ⟨by simp [claim_offer, hoff, hpick, hins], by simp [claim_offer, hoff, hpick, hins]⟩
  · intro i hi hfresh hfirst
    have hpick : pickCode st.coupons (couponPfx offer) rnd =
        some (candidateCode (couponPfx offer) rnd i) :=
      pickCodeLoop_first _ _ _ 10 0 i (Nat.zero_le i) (by omega) hfresh
        (fun j _ hj2 => hfirst j hj2)
    have hany := findCoupon_none_any_false hfresh
    have hins : dbInsertCoupon st (newCouponRow st offer
        (some (candidateCode (couponPfx offer) rnd i))) =
        .ok { st with
          coupons := st.coupons ++
            [newCouponRow st offer (some (candidateCode (couponPfx offer) rnd i))]
          next_coupon_id := st.next_coupon_id + 1 } := by
      simp [dbInsertCoupon, newCouponRow, hany]
    refine ⟨{ ok := true
              code := some (candidateCode (couponPfx offer) rnd i)
              view_url := viewUrl (some (candidateCode (couponPfx offer) rnd i))
              qr_url := qrUrl (some (candidateCode (couponPfx offer) rnd i))
              expires := offer.expires }, ?_, rfl⟩
    simp [claim_offer, hoff, hpick, hins]

/-- Instantiation of `claim_retry_exhaustion`: with a byte stream of zeros,
the very first candidate CHIP-0000000000 is fresh in the example database
and is the code of the issued coupon. -/
theorem claim_retry_exhaustion_witness :
    ∃ resp, (claim_offer wDB 1 (fun _ _ => 0)).1 = ClaimOutcome.success resp ∧
      resp.code = some (candidateCode (couponPfx wOffer) (fun _ _ => 0) 0) :=
  (claim_retry_exhaustion wDB 1 (fun _ _ => 0) wOffer (by decide)).2 0 (by decide)
    (by decide) (fun j hj => absurd hj (Nat.not_lt_zero j))

/-! ## C5 — the successful claim path -/

/-- C5: a successful claim of an existing offer appends exactly one new
`CouponCode` whose restaurant, description and expiration date are the
offer's values snapshotted at issuance, leaves the offers table unchanged,
and answers with ok, the code, the coupon view and QR routes, and `expires`
equal to the coupon's stored expiration date. -/
theorem claim_success_snapshot (st : DB) (oid : Nat) (rnd : Nat → Nat → Nat)
    (offer : Offer) (code : String)
    (hoff : st.offers.find? (fun o => o.id == oid) = some offer)
    (hpick : pickCode st.coupons (couponPfx offer) rnd = some code) :
    ∃ coupon resp,
      (claim_offer st oid rnd).1 = ClaimOutcome.success resp ∧
      (claim_offer st oid rnd).2.coupons = st.coupons ++ [coupon] ∧
      (claim_offer st oid rnd).2.offers = st.offers ∧
      coupon.restaurant = offer.restaurant ∧
      coupon.description = offer.description ∧
      coupon.expires = offer.expires ∧
      coupon.offer_id = some offer.id ∧
      coupon.code = some code ∧
      coupon.redeemed_at = none ∧
      resp.ok = true ∧
      resp.code = some code ∧
      resp.view_url = "/coupon/" ++ code ∧
      resp.qr_url = "/coupon/" ++ code ++ "/qr.png" ∧
      resp.expires = coupon.expires := by
  have hfresh : findCoupon st.coupons code = none :=
    pickCodeLoop_some_fresh st.coupons (couponPfx offer) rnd 10 0 code hpick
  have hany := findCoupon_none_any_false hfresh
  have hins : dbInsertCoupon st (newCouponRow st offer (some code)) =
      .ok { st with
        coupons := st.coupons ++ [newCouponRow st offer (some code)]
        next_coupon_id := st.next_coupon_id + 1 } := by
    simp [dbInsertCoupon, newCouponRow, hany]
  refine ⟨newCouponRow st offer (some code),
    { ok := true, code := some code, view_url := viewUrl (some code),
      qr_url := qrUrl (some code), expires := offer.expires },
    ?_, ?_, ?_, rfl, rfl, rfl, rfl, rfl, rfl, rfl, rfl, rfl, rfl, rfl⟩
  · simp [claim_offer, hoff, hpick, hins, viewUrl, qrUrl]
  · simp [claim_offer, hoff, hpick, hins]
  · simp [claim_offer, hoff, hpick, hins]

/-- Instantiation of `claim_success_snapshot` at the example database. -/
theorem claim_success_snapshot_witness :
    ∃ coupon resp,
      (claim_offer wDB 1 (fun _ _ => 0)).1 = ClaimOutcome.success resp ∧
      (claim_offer wDB 1 (fun _ _ => 0)).2.coupons = wDB.coupons ++ [coupon] ∧
      (claim_offer wDB 1 (fun _ _ => 0)).2.offers = wDB.offers ∧
      coupon.restaurant = wOffer.restaurant ∧
      coupon.description = wOffer.description ∧
      coupon.expires = wOffer.expires ∧
      coupon.offer_id = some wOffer.id ∧
      coupon.code = some "CHIP-0000000000" ∧
      coupon.redeemed_at = none ∧
      resp.ok = true ∧
      resp.code = some "CHIP-0000000000" ∧
      resp.view_url = "/coupon/" ++ "CHIP-0000000000" ∧
      resp.qr_url = "/coupon/" ++ "CHIP-0000000000" ++ "/qr.png" ∧
      resp.expires = coupon.expires :=
  claim_success_snapshot wDB 1 (fun _ _ => 0) wOffer "CHIP-0000000000"
    (by decide) (by decide)

/-! ## C9 — claims never touch offers -/

lemma claim_offers_eq (st : DB) (oid : Nat) (rnd : Nat → Nat → Nat) :
    (claim_offer st oid rnd).2.offers = st.offers := by
  rcases claim_offer_cases st oid rnd with ⟨h, _⟩ | ⟨offer, code, _, _, _, _, h⟩
  · rw [h]
  · rw [h]

/-- C9: the claim operation never modifies any stored offer — not on success,
not on failure — so any sequence of claim requests leaves the offers table
exactly as it was, and the same offer can be claimed again without bound;
each successful claim appends exactly one independent coupon row. -/
theorem claim_offer_frame (st : DB) (oid : Nat) (rnd : Nat → Nat → Nat) :
    (claim_offer st oid rnd).2.offers = st.offers ∧
    (∀ reqs : List (Nat × (Nat → Nat → Nat)),
      (reqs.foldl (fun s r => (claim_offer s r.1 r.2).2) st).offers = st.offers) ∧
    (∀ resp, (claim_offer st oid rnd).1 = ClaimOutcome.success resp →
      (claim_offer st oid rnd).2.coupons.length = st.coupons.length + 1) := by
  refine ⟨claim_offers_eq st oid rnd, ?_, ?_⟩
  · intro reqs
    induction reqs generalizing st with
    | nil => rfl
    | cons r rest ih =>
      rw [List.foldl_cons]
      rw [ih ((claim_offer st r.1 r.2).2)]
      exact claim_offers_eq st r.1 r.2
  · intro resp hresp
    rcases claim_offer_cases st oid rnd with ⟨_, hnone⟩ | ⟨offer, code, _, _, _, _, hstate⟩
    · exact absurd hresp (hnone resp)
    · rw [hstate]
      simp

/-- Instantiation of `claim_offer_frame`: the successful claim above adds
exactly one coupon row to the example database. -/
theorem claim_offer_frame_witness :
    (claim_offer wDB 1 (fun _ _ => 0)).2.coupons.length = wDB.coupons.length + 1 :=
  (claim_offer_frame wDB 1 (fun _ _ => 0)).2.2
    { ok := true, code := some "CHIP-0000000000",
      view_url := viewUrl (some "CHIP-0000000000"),
      qr_url := qrUrl (some "CHIP-0000000000"), expires := 100 }
    (by decide)

/-! ## Lemmas on updates performed by redeem -/

lemma updateCoupon_map_code (f : CouponCode → CouponCode) (hf : ∀ c, (f c).code = c.code)
    (cs : List CouponCode) (code : String) :
    (updateCoupon cs code f).map (fun c => c.code) = cs.map (fun c => c.code) := by
  induction cs with
  | nil => rfl
  | cons a rest ih =>
    by_cases h : (a.code == some code) = true
    · simp [updateCoupon, h, hf]
    · simp [updateCoupon, h, ih]

lemma findCoupon_updateCoupon (f : CouponCode → CouponCode) (hf : ∀ c, (f c).code = c.code)
    (cs : List CouponCode) (code : String) :
    findCoupon (updateCoupon cs code f) code = (findCoupon cs code).map f := by
  induction cs with
  | nil => rfl
  | cons a rest ih =>
    simp only [updateCoupon]
    by_cases h : (a.code == some code) = true
    · have hfa : ((f a).code == some code) = true := by rw [hf]; exact h
      rw [if_pos h]
      show List.find? (fun c => c.code == some code) (f a :: rest) = _
      rw [List.find?_cons_of_pos (p := fun (c : CouponCode) => c.code == some code) _ hfa]
      simp only [findCoupon]
      rw [List.find?_cons_of_pos (p := fun (c : CouponCode) => c.code == some code) _ h]
      rfl
    · rw [if_neg h]
      show List.find? (fun c => c.code == some code) (a :: updateCoupon rest code f) = _
      rw [List.find?_cons_of_neg (p := fun (c : CouponCode) => c.code == some code) _ h]
      simp only [findCoupon] at ih ⊢
      rw [List.find?_cons_of_neg (p := fun (c : CouponCode) => c.code == some code) _ h]
      exact ih

lemma updateCoupon_sticky (f : CouponCode → CouponCode) :
    ∀ (cs : List CouponCode) (code : String) (c0 : CouponCode),
      findCoupon cs code = some c0 → c0.redeemed_at = none →
      ∀ (i : Nat) (c : CouponCode) (t : Nat), cs[i]? = some c → c.redeemed_at = some t →
        (updateCoupon cs code f)[i]? = some c := by
  intro cs
  induction cs with
  | nil =>
    intro code c0 h
    simp [findCoupon] at h
  | cons a rest ih =>
    intro code c0 hfind hnone i c t hi hred
    by_cases h : (a.code == some code) = true
    · have ha : c0 = a := by
        simp only [findCoupon] at hfind
        rw [List.find?_cons_of_pos (p := fun (c : CouponCode) => c.code == some code) _ h] at hfind
        exact (Option.some.inj hfind).symm
      cases i with
      | zero =>
        have hac : a = c := by simpa using hi
        rw [ha, hac, hred] at hnone
        exact Option.noConfusion hnone
      | succ n =>
        simp only [updateCoupon]
        rw [if_pos h, List.getElem?_cons_succ]
        simpa using hi
    · have hfind' : findCoupon rest code = some c0 := by
        simp only [findCoupon] at hfind ⊢
        rw [List.find?_cons_of_neg (p := fun (c : CouponCode) => c.code == some code) _ h] at hfind
        exact hfind
      cases i with
      | zero =>
        simp only [updateCoupon]
        rw [if_neg h]
        simpa using hi
      | succ n =>
        simp only [updateCoupon]
        rw [if_neg h, List.getElem?_cons_succ]
        exact ih code c0 hfind' hnone n c t (by simpa using hi) hred

/-- Either redeem changes nothing, or it reports success. -/
lemma redeem_state_cases (st : DB) (fc fw : Option String) (today : Int) (now : Nat) :
    (redeem st fc fw today now).2 = st ∨
    ∃ z, (redeem st fc fw today now).1 = RedeemOutcome.success z := by
  by_cases hc : normalizeCode fc = ""
  · left; simp [redeem, hc]
  · cases hf : findCoupon st.coupons (normalizeCode fc) with
    | none => left; simp [redeem, hc, hf]
    | some c =>
      by_cases hexp : c.is_expired today
      · left; simp [redeem, hc, hf, hexp]
      · by_cases hredeem : c.is_redeemed
        · left; simp [redeem, hc, hf, hexp, hredeem]
        · right; exact ⟨c.code, by simp [redeem, hc, hf, hexp, hredeem]⟩

/-- Inversion of a successful redeem: the normalized code was found, the
coupon was neither expired nor redeemed, and the state update replaces just
that coupon by its marked version. -/
lemma redeem_success_state {st : DB} {fc fw : Option String} {today : Int} {now : Nat}
    {z : Option String} (h : (redeem st fc fw today now).1 = RedeemOutcome.success z) :
    ∃ c, findCoupon st.coupons (normalizeCode fc) = some c ∧
      c.is_expired today = false ∧ c.is_redeemed = false ∧ z = c.code ∧
      (redeem st fc fw today now).2 = { st with coupons := updateCoupon st.coupons (normalizeCode fc) (markRedeemed now (strTrim (fw.getD ""))) } := by
  by_cases hc : normalizeCode fc = ""
  · simp [redeem, hc] at h
  · cases hf : findCoupon st.coupons (normalizeCode fc) with
    | none => simp [redeem, hc, hf] at h
    | some c =>
      by_cases hexp : c.is_expired today
      · simp [redeem, hc, hf, hexp] at h
      · by_cases hredeem : c.is_redeemed
        · simp [redeem, hc, hf, hexp, hredeem] at h
        · refine ⟨c, rfl, by simpa using hexp, by simpa using hredeem, ?_, ?_⟩
          · simp only [redeem, hc, hf, hexp, hredeem] at h
            simp at h
            exact h.symm
          · simp [redeem, hc, hf, hexp, hredeem]

lemma create_offer_coupons (st : DB) (rtext dtext : String) (e : Option Int) :
    (create_offer st rtext dtext e).2.coupons = st.coupons := by
  unfold create_offer
  dsimp only
  split
  · rfl
  · cases e with
    | none => rfl
    | some d => rfl

/-! ## C2 — redemption happens at most once and is never undone -/

/-- C2: once a redemption succeeds, re-submitting the same code on the same
day yields the conflict outcome and no later attempt can ever succeed again
(at most one success per coupon); moreover no operation of the system —
claim, redeem or offer creation — ever unsets a stored redemption
timestamp: the transition is one-way. -/
theorem redeem_at_most_once (st : DB) (fc fw fw2 : Option String) (today today2 : Int)
    (now now2 : Nat) :
    (∀ z, (redeem st fc fw today now).1 = RedeemOutcome.success z →
      (redeem (redeem st fc fw today now).2 fc fw2 today now2).1 =
        RedeemOutcome.alreadyRedeemed ∧
      ∀ z2, (redeem (redeem st fc fw today now).2 fc fw2 today2 now2).1 ≠
        RedeemOutcome.success z2) ∧
    (∀ op : Op, ∀ (i : Nat) (c : CouponCode) (t : Nat),
      st.coupons[i]? = some c → c.redeemed_at = some t →
      ∃ c', (step st op).coupons[i]? = some c' ∧ c'.redeemed_at = some t) := by
  constructor
  · intro z hz
    obtain ⟨c, hf, hexp, _, _, hst⟩ := redeem_success_state hz
    have hcne : normalizeCode fc ≠ "" := by
      intro h0
      rw [show (redeem st fc fw today now).1 = RedeemOutcome.missingCode from by
        simp [redeem, h0]] at hz
      exact RedeemOutcome.noConfusion hz
    have hfind' : findCoupon (redeem st fc fw today now).2.coupons (normalizeCode fc) =
        some (markRedeemed now (strTrim (fw.getD "")) c) := by
      rw [hst]
      show findCoupon (updateCoupon st.coupons (normalizeCode fc)
        (markRedeemed now (strTrim (fw.getD "")))) (normalizeCode fc) = _
      rw [findCoupon_updateCoupon (markRedeemed now (strTrim (fw.getD ""))) (fun _ => rfl), hf]
      rfl
    have hexp2 : (markRedeemed now (strTrim (fw.getD "")) c).is_expired today = false := hexp
    have hred2 : (markRedeemed now (strTrim (fw.getD "")) c).is_redeemed = true := rfl
    constructor
    · generalize hG : (redeem st fc fw today now).2 = st2 at hfind' ⊢
      simp [redeem, hcne, hfind', hexp2, hred2]
    · intro z2 hz2
      obtain ⟨c2, hf2, _, hc2red, _, _⟩ := redeem_success_state hz2
      rw [hfind'] at hf2
      have hc2 : c2 = markRedeemed now (strTrim (fw.getD "")) c := (Option.some.inj hf2).symm
      rw [hc2, hred2] at hc2red
      exact Bool.noConfusion hc2red
  · intro op i c t hi hred
    cases op with
    | claimOp oid rnd =>
      rcases claim_offer_cases st oid rnd with ⟨hstate, _⟩ | ⟨offer, code, _, _, _, _, hstate⟩
      · exact ⟨c, by simpa [step, hstate] using hi, hred⟩
      · refine ⟨c, ?_, hred⟩
        have hlt : i < st.coupons.length := by
          by_contra hge
          rw [List.getElem?_eq_none (by omega)] at hi
          exact Option.noConfusion hi
        simp only [step, hstate]
        rw [List.getElem?_append, if_pos hlt]
        exact hi
    | redeemOp fc0 fw0 today0 now0 =>
      rcases redeem_state_cases st fc0 fw0 today0 now0 with hstate | ⟨z, hout⟩
      · exact ⟨c, by simpa [step, hstate] using hi, hred⟩
      · obtain ⟨c0, hf0, _, hred0, _, hstate⟩ := redeem_success_state hout
        have hnone0 : c0.redeemed_at = none := by
          cases hv : c0.redeemed_at with
          | none => rfl
          | some t0 =>
            rw [CouponCode.is_redeemed, hv] at hred0
            exact Bool.noConfusion hred0
        refine ⟨c, ?_, hred⟩
        simp only [step, hstate]
        exact updateCoupon_sticky _ st.coupons _ c0 hf0 hnone0 i c t hi hred
    | createOfferOp r d e =>
      refine ⟨c, ?_, hred⟩
      show (create_offer st r d e).2.coupons[i]? = some c
      rw [create_offer_coupons]
      exact hi

/-- Instantiation of `redeem_at_most_once`: redeeming the example coupon
succeeds once, and the immediate second attempt with the same code reports
the conflict outcome. -/
theorem redeem_at_most_once_witness :
    (redeem (redeem wDB (some "chip-aa11bb22cc") (some "Bob") 100 7).2
        (some "chip-aa11bb22cc") none 100 8).1 = RedeemOutcome.alreadyRedeemed :=
  ((redeem_at_most_once wDB (some "chip-aa11bb22cc") (some "Bob") none 100 100 7 8).1
    (some "CHIP-AA11BB22CC") (by decide)).1

/-! ## C3 — global uniqueness of codes -/

lemma code_not_mem_map {cs : List CouponCode} {code : String}
    (h : findCoupon cs code = none) : some code ∉ cs.map (fun c => c.code) := by
  rw [findCoupon_eq_none] at h
  intro hmem
  rcases List.mem_map.mp hmem with ⟨c, hc, hcode⟩
  exact h c hc hcode

/-- C3: every operation preserves pairwise distinctness of the stored code
values, and the code of every successfully issued coupon differs from the
code of every previously stored coupon: the system never holds two live
coupons with the same code. -/
theorem code_uniqueness_preserved (st : DB) (op : Op) (h : codesDistinct st) :
    codesDistinct (step st op) ∧
    (∀ oid rnd resp, (claim_offer st oid rnd).1 = ClaimOutcome.success resp →
      ∀ c ∈ st.coupons, c.code ≠ resp.code) := by
  constructor
  · cases op with
    | claimOp oid rnd =>
      rcases claim_offer_cases st oid rnd with ⟨hstate, _⟩ | ⟨offer, code, _, _, hfresh, _, hstate⟩
      · show codesDistinct (claim_offer st oid rnd).2
        rw [hstate]
        exact h
      · show codesDistinct (claim_offer st oid rnd).2
        rw [hstate]
        unfold codesDistinct at h ⊢
        show (List.map (fun c => c.code) (st.coupons ++ [newCouponRow st offer (some code)])).Nodup
        rw [List.map_append]
        rw [List.nodup_append]
        refine ⟨h, by simp, ?_⟩
        intro x hx hx'
        simp only [List.map_cons, List.map_nil, List.mem_cons, List.not_mem_nil,
          or_false, newCouponRow_code] at hx'
        rw [hx'] at hx
        exact code_not_mem_map hfresh hx
    | redeemOp fc fw today now =>
      rcases redeem_state_cases st fc fw today now with hstate | ⟨z, hout⟩
      · show codesDistinct (redeem st fc fw today now).2
        rw [hstate]
        exact h
      · obtain ⟨c0, _, _, _, _, hstate⟩ := redeem_success_state hout
        show codesDistinct (redeem st fc fw today now).2
        rw [hstate]
        unfold codesDistinct at h ⊢
        show (List.map (fun c => c.code) (updateCoupon st.coupons (normalizeCode fc)
          (markRedeemed now (strTrim (fw.getD ""))))).Nodup
        rw [updateCoupon_map_code (markRedeemed now (strTrim (fw.getD ""))) (fun _ => rfl)]
        exact h
    | createOfferOp r d e =>
      show codesDistinct (create_offer st r d e).2
      unfold codesDistinct
      rw [create_offer_coupons]
      exact h
  · intro oid rnd resp hresp c hc
    rcases claim_offer_cases st oid rnd with ⟨_, hnone⟩ | ⟨offer, code, _, _, hfresh, hout, _⟩
    · exact absurd hresp (hnone resp)
    · rw [hout] at hresp
      have hr : resp.code = some code := by
        rw [← ClaimOutcome.success.inj hresp]
      rw [hr]
      intro heq
      rw [findCoupon_eq_none] at hfresh
      exact hfresh c hc heq

/-- Instantiation of `code_uniqueness_preserved`: redeeming a coupon keeps
the stored codes of the example database pairwise distinct. -/
theorem code_uniqueness_preserved_witness :
    codesDistinct (step wDB (Op.redeemOp (some "chip-aa11bb22cc") none 100 7)) :=
  (code_uniqueness_preserved wDB (Op.redeemOp (some "chip-aa11bb22cc") none 100 7)
    (show (wDB.coupons.map (fun c => c.code)).Nodup by decide)).1

end Coupons
